import Mathlib

/-!
Verification of the MBS pool tagging/scoring engine (`src/tagging/pool_tagger.py`).

Modeling conventions (shallow embedding):
* Python floats are modeled as exact rationals (`ℚ`); arithmetic is exact.
* `round(x, n)` is modeled as rounding to `n` decimal digits with ties going to
  the even integer (Python's documented rounding mode), applied to the exact
  rational value.
* `Optional[T]` fields become `Option`; Python truthiness tests (`not s`,
  `x or default`) are modeled explicitly, including the fact that `0.0` and
  `""` are falsy.
* `dict.get(key, default)` lookups become total functions on `String` with the
  same default in the catch-all branch.
* The pool store that `tag_all_pools` paginates over is modeled as a list of
  staleness flags ordered by pool id (`false` = `tags_updated_at IS NULL`);
  the SQL batch query `WHERE tags_updated_at IS NULL ORDER BY pool_id LIMIT b
  OFFSET k` returns a contiguous slice of the untagged sublist, and the batch
  UPDATE marks exactly those rows tagged.
-/

/-- Round a rational to the nearest integer, ties to even (Python `round`). -/
def roundHE (x : ℚ) : ℤ :=
  if x - ⌊x⌋ < 1/2 then ⌊x⌋
  else if 1/2 < x - ⌊x⌋ then ⌊x⌋ + 1
  else if ⌊x⌋ % 2 = 0 then ⌊x⌋ else ⌊x⌋ + 1

/-- Python `round(x, 3)` on the exact rational value. -/
def round3 (x : ℚ) : ℚ := (roundHE (x * 1000) : ℚ) / 1000

/-- Python `round(x, 1)` on the exact rational value. -/
def round1 (x : ℚ) : ℚ := (roundHE (x * 10) : ℚ) / 10

theorem roundHE_ge (x : ℚ) : x - 1/2 ≤ (roundHE x : ℚ) := by
  unfold roundHE
  have h0 : (⌊x⌋ : ℚ) ≤ x := Int.floor_le x
  have h1 : x < (⌊x⌋ : ℚ) + 1 := Int.lt_floor_add_one x
  split_ifs with hlt hgt heven <;> push_cast <;> linarith

theorem roundHE_le (x : ℚ) : (roundHE x : ℚ) ≤ x + 1/2 := by
  unfold roundHE
  have h0 : (⌊x⌋ : ℚ) ≤ x := Int.floor_le x
  have h1 : x < (⌊x⌋ : ℚ) + 1 := Int.lt_floor_add_one x
  split_ifs with hlt hgt heven <;> push_cast <;> linarith

/-- An integer strictly above `k - 1` is at least `k`. -/
theorem int_le_of_cast_lt {n k : ℤ} (h : (k : ℚ) - 1 < (n : ℚ)) : k ≤ n := by
  have : (k : ℚ) < (n : ℚ) + 1 := by linarith
  exact_mod_cast Int.lt_add_one_iff.mp (by exact_mod_cast this)

/-- Lower bound for `round3`: if `n - 1/2 < 1000·x` then `n/1000 ≤ round3 x`. -/
theorem round3_ge_of (x : ℚ) (n : ℤ) (h : (n : ℚ) - 1/2 < x * 1000) :
    (n : ℚ) / 1000 ≤ round3 x := by
  unfold round3
  have h1 : x * 1000 - 1/2 ≤ (roundHE (x * 1000) : ℚ) := roundHE_ge _
  have h2 : (n : ℚ) - 1 < (roundHE (x * 1000) : ℚ) := by linarith
  have h3 : (n : ℚ) ≤ (roundHE (x * 1000) : ℚ) := by exact_mod_cast int_le_of_cast_lt h2
  linarith

/-- Upper bound for `round3`: if `1000·x < n + 1/2` then `round3 x ≤ n/1000`. -/
theorem round3_le_of (x : ℚ) (n : ℤ) (h : x * 1000 < (n : ℚ) + 1/2) :
    round3 x ≤ (n : ℚ) / 1000 := by
  unfold round3
  have h1 : (roundHE (x * 1000) : ℚ) ≤ x * 1000 + 1/2 := roundHE_le _
  have h2 : (roundHE (x * 1000) : ℚ) - 1 < (n : ℚ) := by linarith
  have h3 : roundHE (x * 1000) ≤ n := int_le_of_cast_lt h2
  have h4 : (roundHE (x * 1000) : ℚ) ≤ (n : ℚ) := by exact_mod_cast h3
  linarith

-- ===========================================================================
-- String helpers (Python `.lower()`, `.upper()`, substring `in`)
-- ===========================================================================

/-- ASCII lowercase of a string (the servicer constant sets are ASCII). -/
def strLower (s : String) : String := String.mk (s.data.map Char.toLower)

/-- ASCII uppercase of a string (state codes are ASCII). -/
def strUpper (s : String) : String := String.mk (s.data.map Char.toUpper)

/-- Python `needle in hay` on character lists. -/
def listContainsSub (needle : List Char) : List Char → Bool
  | [] => needle.isEmpty
  | c :: rest => needle.isPrefixOf (c :: rest) || listContainsSub needle rest

/-- Python `needle in hay` for strings. -/
def strContainsSub (hay needle : String) : Bool := listContainsSub needle.data hay.data

-- ===========================================================================
-- Constants from the top of pool_tagger.py
-- ===========================================================================

def HIGH_FRICTION_STATES : List String := ["NY", "NJ", "FL", "IL", "CT", "MA", "PA", "OH"]

def LOW_FRICTION_STATES : List String := ["CA", "TX", "AZ", "CO", "WA", "GA", "NV", "OR"]

def FAST_SERVICERS : List String :=
  ["rocket", "quicken", "better", "loandepot", "uwm",
   "united wholesale", "pennymac", "freedom mortgage"]

def SLOW_SERVICERS : List String :=
  ["wells fargo", "chase", "jpmorgan", "bank of america", "bofa",
   "ocwen", "carrington", "specialized loan servicing", "cenlar", "us bank"]

/-- LLB_SCORES.get(tier, 40). -/
def llbScore : String → ℚ
  | "LLB1" => 95 | "LLB2" => 88 | "LLB3" => 80 | "LLB4" => 72
  | "LLB5" => 65 | "LLB6" => 58 | "LLB7" => 52 | "MLB" => 45
  | "STD" => 40 | "JUMBO" => 25
  | _ => 40

/-- SERVICER_SCORES.get(risk, 50). -/
def servicerScore : String → ℚ
  | "PREPAY_PROTECTED" => 80 | "NEUTRAL" => 50 | "PREPAY_EXPOSED" => 20
  | _ => 50

/-- STATE_SCORES.get(friction, 50). -/
def stateScore : String → ℚ
  | "HIGH_FRICTION" => 75 | "MODERATE_FRICTION" => 50 | "LOW_FRICTION" => 30
  | _ => 50

/-- FICO_SCORES.get(bucket, 50). -/
def ficoScore : String → ℚ
  | "FICO_LOW" => 80 | "FICO_SUBPRIME" => 70 | "FICO_FAIR" => 55
  | "FICO_GOOD" => 50 | "FICO_EXCELLENT" => 35 | "FICO_SUPER" => 25
  | _ => 50

/-- LTV_SCORES.get(bucket, 55). -/
def ltvScore : String → ℚ
  | "LTV_LOW" => 40 | "LTV_MOD" => 50 | "LTV_STANDARD" => 55
  | "LTV_HIGH" => 65 | "LTV_VERY_HIGH" => 75 | "LTV_EXTREME" => 85
  | _ => 55

-- ===========================================================================
-- PoolData dataclass
-- ===========================================================================

/-- The `PoolData` dataclass: raw pool attributes consumed by the tagger. -/
structure PoolData where
  pool_id : String
  avg_loan_size : Option ℚ
  avg_fico : Option ℤ
  avg_ltv : Option ℚ
  wala : Option ℤ
  wac : Option ℚ
  top_state : Option String
  top_state_pct : Option ℚ
  servicer_name : Option String
  product_type : Option String
  factor : Option ℚ
deriving DecidableEq

-- ===========================================================================
-- Layer 1: static attribute classifiers
-- ===========================================================================

/-- classify_loan_balance_tier (conforming_limit is the default 766550 at all
call sites in the pipeline). -/
def classifyLoanBalanceTier (avg_loan_size : Option ℚ) (conforming_limit : ℚ) : String :=
  match avg_loan_size with
  | none => "STD"
  | some s =>
    if s ≤ 85000 then "LLB1"
    else if s ≤ 110000 then "LLB2"
    else if s ≤ 125000 then "LLB3"
    else if s ≤ 150000 then "LLB4"
    else if s ≤ 175000 then "LLB5"
    else if s ≤ 200000 then "LLB6"
    else if s ≤ 225000 then "LLB7"
    else if s ≤ 300000 then "MLB"
    else if s ≤ conforming_limit then "STD"
    else "JUMBO"

/-- classify_fico_bucket. -/
def classifyFicoBucket (avg_fico : Option ℤ) : String :=
  match avg_fico with
  | none => "FICO_GOOD"
  | some f =>
    if f < 660 then "FICO_LOW"
    else if f < 680 then "FICO_SUBPRIME"
    else if f < 720 then "FICO_FAIR"
    else if f < 760 then "FICO_GOOD"
    else if f < 780 then "FICO_EXCELLENT"
    else "FICO_SUPER"

/-- classify_ltv_bucket. -/
def classifyLtvBucket (avg_ltv : Option ℚ) : String :=
  match avg_ltv with
  | none => "LTV_STANDARD"
  | some l =>
    if l ≤ 60 then "LTV_LOW"
    else if l ≤ 70 then "LTV_MOD"
    else if l ≤ 80 then "LTV_STANDARD"
    else if l ≤ 90 then "LTV_HIGH"
    else if l ≤ 95 then "LTV_VERY_HIGH"
    else "LTV_EXTREME"

/-- classify_seasoning_stage. -/
def classifySeasoningStage (wala : Option ℤ) : String :=
  match wala with
  | none => "FULLY_SEASONED"
  | some w =>
    if w ≤ 6 then "NEW_PRODUCTION"
    else if w ≤ 12 then "RAMPING"
    else if w ≤ 24 then "SEASONED"
    else if w ≤ 36 then "FULLY_SEASONED"
    else if w ≤ 60 then "WELL_SEASONED"
    else "BURNED_OUT"

/-- classify_state_friction.  `if not top_state or top_state_pct is None or
top_state_pct < 25` is the first guard; `not top_state` is true for both
`None` and the empty string. -/
def classifyStateFriction (top_state : Option String) (top_state_pct : Option ℚ) : String :=
  match top_state, top_state_pct with
  | none, _ => "MODERATE_FRICTION"
  | some _, none => "MODERATE_FRICTION"
  | some s, some pct =>
    if s = "" ∨ pct < 25 then "MODERATE_FRICTION"
    else
      let st := strUpper s
      if st ∈ HIGH_FRICTION_STATES ∧ pct ≥ 30 then "HIGH_FRICTION"
      else if st ∈ LOW_FRICTION_STATES ∧ pct ≥ 30 then "LOW_FRICTION"
      else "MODERATE_FRICTION"

/-- classify_servicer_prepay_risk: case-insensitive substring match, fast set
checked before slow set, empty/missing name is NEUTRAL. -/
def classifyServicerPrepayRisk (servicer_name : Option String) : String :=
  match servicer_name with
  | none => "NEUTRAL"
  | some s =>
    if s = "" then "NEUTRAL"
    else if FAST_SERVICERS.any (fun f => strContainsSub (strLower s) f) then "PREPAY_EXPOSED"
    else if SLOW_SERVICERS.any (fun f => strContainsSub (strLower s) f) then "PREPAY_PROTECTED"
    else "NEUTRAL"

/-- classify_geo_concentration. -/
def classifyGeoConcentration (top_state : Option String) (top_state_pct : Option ℚ) : String :=
  match top_state, top_state_pct with
  | none, _ => "DIVERSIFIED"
  | some _, none => "DIVERSIFIED"
  | some s, some pct =>
    if s = "" then "DIVERSIFIED"
    else
      let st := strUpper s
      if st = "CA" ∧ pct ≥ 30 then "CA_HEAVY"
      else if st = "TX" ∧ pct ≥ 30 then "TX_HEAVY"
      else if st = "FL" ∧ pct ≥ 30 then "FL_HEAVY"
      else if st = "NY" ∧ pct ≥ 25 then "NY_HEAVY"
      else if st ∈ ["CA", "FL", "NY", "WA", "OR", "MA"] ∧ pct ≥ 25 then "COASTAL"
      else if st ∈ ["TX", "FL", "AZ", "NV", "GA"] ∧ pct ≥ 25 then "SUNBELT"
      else if st ∈ ["OH", "MI", "IL", "IN", "WI"] ∧ pct ≥ 25 then "MIDWEST"
      else if pct < 20 then "DIVERSIFIED"
      else st ++ "_CONCENTRATED"

-- ===========================================================================
-- Layer 2: derived metric calculators
-- ===========================================================================

/-- calc_refi_incentive: (wac − current_rate) × 100, 0.0 for null wac. -/
def calcRefiIncentive (current_rate : ℚ) (wac : Option ℚ) : ℚ :=
  match wac with
  | none => 0
  | some w => (w - current_rate) * 100

/-- calc_burnout_score: null wala is treated as 36 months and null factor as
0.85; the result is capped at 100 (and only at 100). -/
def calcBurnoutScore (wala : Option ℤ) (factor : Option ℚ) (refi_incentive_bps : ℚ) : ℚ :=
  let w : ℚ := match wala with | none => 36 | some x => (x : ℚ)
  let f : ℚ := match factor with | none => 0.85 | some x => x
  let seasoning_pts := min 35 (w / 60 * 35)
  let paydown_pts := min 45 ((1 - f) * 60)
  let itm_bonus := if refi_incentive_bps > 50 ∧ w > 12 then min 20 (w / 24 * 20) else 0
  min 100 (seasoning_pts + paydown_pts + itm_bonus)

/-- Premium-multiplier table keyed by loan balance tier (`tier_mults.get(tier, 1.0)`). -/
def premiumTierMult : String → ℚ
  | "LLB1" => 0.65 | "LLB2" => 0.70 | "LLB3" => 0.75 | "LLB4" => 0.80
  | "LLB5" => 0.84 | "LLB6" => 0.87 | "LLB7" => 0.90 | "MLB" => 0.95
  | "STD" => 1.00 | "JUMBO" => 1.10
  | _ => 1

/-- Premium-multiplier table keyed by servicer risk (`servicer_mults.get(risk, 1.0)`). -/
def premiumServicerMult : String → ℚ
  | "PREPAY_PROTECTED" => 0.85 | "NEUTRAL" => 1.0 | "PREPAY_EXPOSED" => 1.15
  | _ => 1

/-- Premium-multiplier table keyed by FICO bucket (`fico_mults.get(bucket, 1.0)`). -/
def premiumFicoMult : String → ℚ
  | "FICO_LOW" => 0.75 | "FICO_SUBPRIME" => 0.80 | "FICO_FAIR" => 0.90
  | "FICO_GOOD" => 1.0 | "FICO_EXCELLENT" => 1.08 | "FICO_SUPER" => 1.12
  | _ => 1

/-- calc_premium_mult: product of the three tables, rounded to 3 decimals. -/
def calcPremiumMult (pool : PoolData) : ℚ :=
  round3 (1 * premiumTierMult (classifyLoanBalanceTier pool.avg_loan_size 766550)
    * premiumServicerMult (classifyServicerPrepayRisk pool.servicer_name)
    * premiumFicoMult (classifyFicoBucket pool.avg_fico))

/-- Discount-multiplier table keyed by loan balance tier. -/
def discountTierMult : String → ℚ
  | "LLB1" => 1.20 | "LLB2" => 1.15 | "LLB3" => 1.12 | "LLB4" => 1.10
  | "LLB5" => 1.08 | "LLB6" => 1.05 | "LLB7" => 1.03 | "MLB" => 1.00
  | "STD" => 1.00 | "JUMBO" => 0.80
  | _ => 1

/-- Discount-multiplier table keyed by servicer risk. -/
def discountServicerMult : String → ℚ
  | "PREPAY_PROTECTED" => 0.90 | "NEUTRAL" => 1.0 | "PREPAY_EXPOSED" => 0.70
  | _ => 1

/-- Discount-multiplier table keyed by FICO bucket. -/
def discountFicoMult : String → ℚ
  | "FICO_LOW" => 1.15 | "FICO_SUBPRIME" => 1.10 | "FICO_FAIR" => 1.05
  | "FICO_GOOD" => 1.0 | "FICO_EXCELLENT" => 0.90 | "FICO_SUPER" => 0.85
  | _ => 1

/-- calc_discount_mult: product of the three tables, rounded to 3 decimals. -/
def calcDiscountMult (pool : PoolData) : ℚ :=
  round3 (1 * discountTierMult (classifyLoanBalanceTier pool.avg_loan_size 766550)
    * discountServicerMult (classifyServicerPrepayRisk pool.servicer_name)
    * discountFicoMult (classifyFicoBucket pool.avg_fico))

/-- calc_convexity_score: premium over discount, with the discount multiplier
replaced by 0.01 when it is not strictly positive. -/
def calcConvexityScore (premium_mult discount_mult : ℚ) : ℚ :=
  round3 (premium_mult / (if discount_mult ≤ 0 then 0.01 else discount_mult))

/-- classify_s_curve_position. -/
def classifySCurvePosition (refi_incentive_bps : ℚ) : String :=
  if refi_incentive_bps < -100 then "LEFT_TAIL"
  else if refi_incentive_bps < -25 then "LEFT_SHOULDER"
  else if refi_incentive_bps < 75 then "INFLECTION"
  else if refi_incentive_bps < 150 then "RIGHT_SHOULDER"
  else "RIGHT_TAIL"

/-- Python `opt or default` on a float: both `None` and `0.0` are falsy. -/
def pyOrQ (opt : Option ℚ) (default : ℚ) : ℚ :=
  match opt with
  | none => default
  | some x => if x = 0 then default else x

/-- Servicer adjustment table in calc_contraction_risk. -/
def contractionServicerAdj : String → ℚ
  | "PREPAY_PROTECTED" => -10 | "NEUTRAL" => 0 | "PREPAY_EXPOSED" => 15
  | _ => 0

/-- FICO adjustment table in calc_contraction_risk. -/
def contractionFicoAdj : String → ℚ
  | "FICO_LOW" => -10 | "FICO_SUBPRIME" => -5 | "FICO_FAIR" => 0
  | "FICO_GOOD" => 5 | "FICO_EXCELLENT" => 10 | "FICO_SUPER" => 15
  | _ => 0

/-- calc_contraction_risk: rounded to 1 decimal and then clamped to [0,100]. -/
def calcContractionRisk (premium_mult burnout : ℚ) (servicer fico : String) : ℚ :=
  let base_risk := (premium_mult - 0.5) / 0.7 * 50
  let burnout_reduction := burnout / 100 * 25
  let risk := base_risk - burnout_reduction
    + contractionServicerAdj servicer + contractionFicoAdj fico
  max 0 (min 100 (round1 risk))

/-- The deep out-of-the-money adjustment inside calc_extension_risk:
`if incentive < -100: 20 elif incentive < -50: 10 else: 0`. -/
def extensionOtmAdj (incentive : ℚ) : ℚ :=
  if incentive < -100 then 20
  else if incentive < -50 then 10
  else 0

/-- LLB adjustment table in calc_extension_risk. -/
def extensionLlbAdj : String → ℚ
  | "LLB1" => -15 | "LLB2" => -12 | "LLB3" => -10 | "LLB4" => -8
  | "LLB5" => -6 | "LLB6" => -4 | "LLB7" => -2 | "MLB" => 0
  | "STD" => 0 | "JUMBO" => 10
  | _ => 0

/-- calc_extension_risk: `factor = pool.factor or 0.85` (so `0.0` also falls
back to 0.85); rounded to 1 decimal and then clamped to [0,100]. -/
def calcExtensionRisk (discount_mult incentive : ℚ) (factorOpt : Option ℚ) (tier : String) : ℚ :=
  let factor := pyOrQ factorOpt 0.85
  let base_risk := (1.2 - discount_mult) / 0.5 * 40
  let factor_adj := if factor > 0.5 then (factor - 0.5) * 20 else 0
  let risk := base_risk + extensionOtmAdj incentive + factor_adj + extensionLlbAdj tier
  max 0 (min 100 (round1 risk))

-- ===========================================================================
-- Layer 3: behavioral tags
-- ===========================================================================

/-- LLB bonus table in _calc_protection_score (`llb_bonus.get(tier, 0)`). -/
def protectionLlbBonus : String → ℚ
  | "LLB1" => 25 | "LLB2" => 20 | "LLB3" => 15 | "LLB4" => 12
  | "LLB5" => 10 | "LLB6" => 8 | "LLB7" => 5 | "MLB" => 2
  | _ => 0

/-- FICO bonus table in _calc_protection_score (`fico_bonus.get(fico, 0)`). -/
def protectionFicoBonus : String → ℚ
  | "FICO_LOW" => 15 | "FICO_SUBPRIME" => 10 | "FICO_FAIR" => 5
  | _ => 0

/-- _calc_protection_score. -/
def calcProtectionScore (tier servicer state fico : String) (burnout : ℚ) : ℚ :=
  protectionLlbBonus tier
    + (if servicer = "PREPAY_PROTECTED" then 12 else 0)
    + (if state = "HIGH_FRICTION" then 10 else 0)
    + protectionFicoBonus fico
    + (if burnout ≥ 60 then 15 else 0)

/-- The factor test in the extension_risk behavior rule:
`(pool.factor or 1.0)`, so a null (or 0.0) factor is treated as 1.0. -/
def behaviorFactorGuard (factorOpt : Option ℚ) : ℚ := pyOrQ factorOpt 1

/-- Sparse behavior-tag mapping: a field is `some evidence` exactly when the
corresponding trigger fired (absence of a key in the Python dict is `none`). -/
structure BehaviorTags where
  prepay_protected : Option (String × ℚ)
  prepay_exposed : Option ℚ
  positive_convexity : Option (ℚ × ℚ × ℚ)
  negative_convexity : Option (String × ℚ)
  burnout_candidate : Option ℚ
  extension_risk : Option String
deriving DecidableEq

/-- generate_behavior_tags, evaluated at the tag values present in the dict at
the call site inside generate_all_tags. -/
def generateBehaviorTags (pool : PoolData) (tier fico servicer state : String)
    (burnout premium discount convexity incentive : ℚ) : BehaviorTags :=
  let protection := calcProtectionScore tier servicer state fico burnout
  { prepay_protected :=
      if protection ≥ 35 then
        some (if protection ≥ 50 then "strong" else "moderate", protection)
      else none
    prepay_exposed :=
      if servicer = "PREPAY_EXPOSED" ∧ (fico = "FICO_EXCELLENT" ∨ fico = "FICO_SUPER")
          ∧ (tier = "STD" ∨ tier = "JUMBO") ∧ burnout < 30 then
        some premium
      else none
    positive_convexity :=
      if convexity < 0.70 then some (convexity, premium, discount) else none
    negative_convexity :=
      if convexity > 1.10 then
        some (if convexity > 1.25 then "high" else "moderate", convexity)
      else none
    burnout_candidate :=
      if burnout ≥ 60 ∧ incentive > 25 then some burnout else none
    extension_risk :=
      if incentive < -100 ∧ discount < 0.85 ∧ behaviorFactorGuard pool.factor > 0.85 then
        some "high"
      else none }

-- ===========================================================================
-- Layer 4: composite scores
-- ===========================================================================

/-- Seasoning score map in calc_composite_prepay_score (`seasoning_map.get(s, 50)`). -/
def seasoningScore : String → ℚ
  | "NEW_PRODUCTION" => 60 | "RAMPING" => 55 | "SEASONED" => 50
  | "FULLY_SEASONED" => 50 | "WELL_SEASONED" => 65 | "BURNED_OUT" => 75
  | _ => 50

/-- calc_composite_prepay_score: Σ scores[k]·weights[k], rounded to 1 decimal. -/
def calcCompositePrepayScore (tier servicer fico state : String) (burnout : ℚ)
    (ltv seasoning : String) : ℚ :=
  round1 (llbScore tier * 0.25 + servicerScore servicer * 0.15
    + ficoScore fico * 0.15 + stateScore state * 0.08
    + burnout * 0.10 + ltvScore ltv * 0.07
    + seasoningScore seasoning * 0.10 + 50 * 0.10)

/-- calc_bull_scenario_score (no clamping in the source). -/
def calcBullScenarioScore (contraction_risk composite burnout : ℚ) : ℚ :=
  round1 (0.60 * (100 - contraction_risk) + 0.25 * composite + 0.15 * burnout)

/-- calc_bear_scenario_score (no clamping in the source). -/
def calcBearScenarioScore (extension_risk discount_mult convexity : ℚ) : ℚ :=
  round1 (0.50 * (100 - extension_risk) + 0.30 * min 100 (discount_mult * 50)
    + 0.20 * (if convexity < 0.7 then 100 else 50))

/-- calc_neutral_scenario_score (no clamping in the source). -/
def calcNeutralScenarioScore (composite convexity : ℚ) : ℚ :=
  round1 (0.40 * composite + 0.35 * (100 - abs (50 - convexity * 50) * 2) + 0.25 * 50)

-- ===========================================================================
-- generate_all_tags: the full four-layer pipeline
-- ===========================================================================

/-- The tag set written back for one pool (keys of the Python tags dict). -/
structure Tags where
  loan_balance_tier : String
  fico_bucket : String
  ltv_bucket : String
  seasoning_stage : String
  state_prepay_friction : String
  servicer_prepay_risk : String
  geo_concentration_tag : String
  refi_incentive_bps : ℚ
  burnout_score : ℚ
  premium_cpr_mult : ℚ
  discount_cpr_mult : ℚ
  convexity_score : ℚ
  s_curve_position : String
  contraction_risk_score : ℚ
  extension_risk_score : ℚ
  behavior_tags : BehaviorTags
  composite_prepay_score : ℚ
  bull_scenario_score : ℚ
  bear_scenario_score : ℚ
  neutral_scenario_score : ℚ
deriving DecidableEq

/-- generate_all_tags: Layers 1–4 in source order, using the market rate held
by the tagger (`self.current_rate`). -/
def generateAllTags (current_rate : ℚ) (pool : PoolData) : Tags :=
  let loan_balance_tier := classifyLoanBalanceTier pool.avg_loan_size 766550
  let fico_bucket := classifyFicoBucket pool.avg_fico
  let ltv_bucket := classifyLtvBucket pool.avg_ltv
  let seasoning_stage := classifySeasoningStage pool.wala
  let state_prepay_friction := classifyStateFriction pool.top_state pool.top_state_pct
  let servicer_prepay_risk := classifyServicerPrepayRisk pool.servicer_name
  let geo_concentration_tag := classifyGeoConcentration pool.top_state pool.top_state_pct
  let refi_incentive_bps := calcRefiIncentive current_rate pool.wac
  let burnout_score := calcBurnoutScore pool.wala pool.factor refi_incentive_bps
  let premium_cpr_mult := calcPremiumMult pool
  let discount_cpr_mult := calcDiscountMult pool
  let convexity_score := calcConvexityScore premium_cpr_mult discount_cpr_mult
  let s_curve_position := classifySCurvePosition refi_incentive_bps
  let contraction_risk_score :=
    calcContractionRisk premium_cpr_mult burnout_score servicer_prepay_risk fico_bucket
  let extension_risk_score :=
    calcExtensionRisk discount_cpr_mult refi_incentive_bps pool.factor loan_balance_tier
  let behavior_tags := generateBehaviorTags pool loan_balance_tier fico_bucket
    servicer_prepay_risk state_prepay_friction burnout_score premium_cpr_mult
    discount_cpr_mult convexity_score refi_incentive_bps
  let composite_prepay_score := calcCompositePrepayScore loan_balance_tier
    servicer_prepay_risk fico_bucket state_prepay_friction burnout_score
    ltv_bucket seasoning_stage
  let bull_scenario_score :=
    calcBullScenarioScore contraction_risk_score composite_prepay_score burnout_score
  let bear_scenario_score :=
    calcBearScenarioScore extension_risk_score discount_cpr_mult convexity_score
  let neutral_scenario_score :=
    calcNeutralScenarioScore composite_prepay_score convexity_score
  ⟨loan_balance_tier, fico_bucket, ltv_bucket, seasoning_stage,
   state_prepay_friction, servicer_prepay_risk, geo_concentration_tag,
   refi_incentive_bps, burnout_score, premium_cpr_mult, discount_cpr_mult,
   convexity_score, s_curve_position, contraction_risk_score, extension_risk_score,
   behavior_tags, composite_prepay_score, bull_scenario_score, bear_scenario_score,
   neutral_scenario_score⟩

-- ===========================================================================
-- Batch orchestrator: tag_all_pools over the pool store
-- ===========================================================================

/-- _get_current_mortgage_rate: the most recent MORTGAGE30US observation when
the query yields a row, otherwise the hardcoded fallback 6.5 (also used when
the query raises). -/
def getCurrentMortgageRate (lookupResult : Option ℚ) : ℚ :=
  match lookupResult with
  | some v => v
  | none => 6.5

/-- The first statement of tag_all_pools:
`self.current_rate = self._get_current_mortgage_rate()` — the rate the
constructor received (e.g. the CLI `--rate` override) is overwritten. -/
def runEffectiveRate (_constructorRate : ℚ) (lookupResult : Option ℚ) : ℚ :=
  getCurrentMortgageRate lookupResult

/-- Number of rows with `tags_updated_at IS NULL` (the COUNT(*) query). -/
def untaggedCount (store : List Bool) : ℕ :=
  (store.filter (fun tagged => !tagged)).length

/-- Number of rows returned by
`WHERE tags_updated_at IS NULL ORDER BY pool_id LIMIT batch OFFSET off`. -/
def batchLen (store : List Bool) (off batch : ℕ) : ℕ :=
  (((store.filter (fun tagged => !tagged)).drop off).take batch).length

/-- The batch UPDATE: mark as tagged exactly the untagged rows whose position
among the untagged rows (in pool-id order) lies in `[off, off + batch)` —
these are the rows the SELECT returned.  `seen` counts untagged rows already
passed. -/
def tagSlice : List Bool → ℕ → ℕ → ℕ → List Bool
  | [], _, _, _ => []
  | tagged :: rest, seen, off, batch =>
    if tagged then
      tagged :: tagSlice rest seen off batch
    else
      (if off ≤ seen ∧ seen < off + batch then true else false)
        :: tagSlice rest (seen + 1) off batch

/-- The `while processed < total` loop of tag_all_pools.  Each iteration
fetches a page, breaks if it is empty, persists it, and advances `offset` by
`batch` regardless of how the set of untagged rows changed.  `fuel` is an
upper bound on the number of iterations (offset grows every iteration, so
`store.length + 1` always suffices for a positive batch size). -/
def tagLoop (batch total : ℕ) (fuel processed off : ℕ) (store : List Bool) :
    ℕ × List Bool :=
  match fuel with
  | 0 => (processed, store)
  | fuel' + 1 =>
    if processed < total then
      if batchLen store off batch = 0 then (processed, store)
      else tagLoop batch total fuel' (processed + batchLen store off batch)
        (off + batch) (tagSlice store 0 off batch)
    else (processed, store)

/-- tag_all_pools: `total` is `COUNT(*)` of untagged rows, capped by `limit`
via SQL `LEAST` — but only when `limit` is truthy (`if limit:`), so a `limit`
of 0 means no cap, exactly as in the source.  Returns the `processed` count
and the final store. -/
def tagAllPools (store : List Bool) (batch_size : ℕ) (limit : Option ℕ) :
    ℕ × List Bool :=
  tagLoop batch_size
    (match limit with
     | none => untaggedCount store
     | some l => if l = 0 then untaggedCount store else min l (untaggedCount store))
    (store.length + 1) 0 0 store

-- ===========================================================================
-- Range lemmas for the multiplier tables
-- ===========================================================================

theorem premiumTierMult_bounds (x : Option ℚ) (limit : ℚ) :
    0.65 ≤ premiumTierMult (classifyLoanBalanceTier x limit) ∧
    premiumTierMult (classifyLoanBalanceTier x limit) ≤ 1.10 := by
  rcases x with _ | s
  · have h : classifyLoanBalanceTier none limit = "STD" := rfl
    rw [h]; norm_num [premiumTierMult]
  · dsimp only [classifyLoanBalanceTier]
    split_ifs <;> norm_num [premiumTierMult]

theorem premiumServicerMult_bounds (x : Option String) :
    0.85 ≤ premiumServicerMult (classifyServicerPrepayRisk x) ∧
    premiumServicerMult (classifyServicerPrepayRisk x) ≤ 1.15 := by
  rcases x with _ | s
  · have h : classifyServicerPrepayRisk none = "NEUTRAL" := rfl
    rw [h]; norm_num [premiumServicerMult]
  · dsimp only [classifyServicerPrepayRisk]
    split_ifs <;> norm_num [premiumServicerMult]

theorem premiumFicoMult_bounds (x : Option ℤ) :
    0.75 ≤ premiumFicoMult (classifyFicoBucket x) ∧
    premiumFicoMult (classifyFicoBucket x) ≤ 1.12 := by
  rcases x with _ | f
  · have h : classifyFicoBucket none = "FICO_GOOD" := rfl
    rw [h]; norm_num [premiumFicoMult]
  · dsimp only [classifyFicoBucket]
    split_ifs <;> norm_num [premiumFicoMult]

theorem discountTierMult_bounds (x : Option ℚ) (limit : ℚ) :
    0.80 ≤ discountTierMult (classifyLoanBalanceTier x limit) ∧
    discountTierMult (classifyLoanBalanceTier x limit) ≤ 1.20 := by
  rcases x with _ | s
  · have h : classifyLoanBalanceTier none limit = "STD" := rfl
    rw [h]; norm_num [discountTierMult]
  · dsimp only [classifyLoanBalanceTier]
    split_ifs <;> norm_num [discountTierMult]

theorem discountServicerMult_bounds (x : Option String) :
    0.70 ≤ discountServicerMult (classifyServicerPrepayRisk x) ∧
    discountServicerMult (classifyServicerPrepayRisk x) ≤ 1 := by
  rcases x with _ | s
  · have h : classifyServicerPrepayRisk none = "NEUTRAL" := rfl
    rw [h]; norm_num [discountServicerMult]
  · dsimp only [classifyServicerPrepayRisk]
    split_ifs <;> norm_num [discountServicerMult]

theorem discountFicoMult_bounds (x : Option ℤ) :
    0.85 ≤ discountFicoMult (classifyFicoBucket x) ∧
    discountFicoMult (classifyFicoBucket x) ≤ 1.15 := by
  rcases x with _ | f
  · have h : classifyFicoBucket none = "FICO_GOOD" := rfl
    rw [h]; norm_num [discountFicoMult]
  · dsimp only [classifyFicoBucket]
    split_ifs <;> norm_num [discountFicoMult]

/-- calc_premium_mult always lands in [0.414, 1.417] (rounded product of the
extreme table entries 0.65·0.85·0.75 and 1.10·1.15·1.12). -/
theorem calcPremiumMult_bounds (pool : PoolData) :
    0.414 ≤ calcPremiumMult pool ∧ calcPremiumMult pool ≤ 1.417 := by
  obtain ⟨ht1, ht2⟩ := premiumTierMult_bounds pool.avg_loan_size 766550
  obtain ⟨hs1, hs2⟩ := premiumServicerMult_bounds pool.servicer_name
  obtain ⟨hf1, hf2⟩ := premiumFicoMult_bounds pool.avg_fico
  set t := premiumTierMult (classifyLoanBalanceTier pool.avg_loan_size 766550) with ht
  set s := premiumServicerMult (classifyServicerPrepayRisk pool.servicer_name) with hs
  set f := premiumFicoMult (classifyFicoBucket pool.avg_fico) with hf
  have ht0 : (0:ℚ) ≤ t := by linarith
  have hs0 : (0:ℚ) ≤ s := by linarith
  have hf0 : (0:ℚ) ≤ f := by linarith
  have hts1 : (0.65 * 0.85 : ℚ) ≤ t * s := mul_le_mul ht1 hs1 (by norm_num) ht0
  have hts2 : t * s ≤ 1.10 * 1.15 := mul_le_mul ht2 hs2 hs0 (by norm_num)
  have hts0 : (0:ℚ) ≤ t * s := mul_nonneg ht0 hs0
  have hp1 : (0.65 * 0.85 * 0.75 : ℚ) ≤ t * s * f := mul_le_mul hts1 hf1 (by norm_num) hts0
  have hp2 : t * s * f ≤ 1.10 * 1.15 * 1.12 := mul_le_mul hts2 hf2 hf0 (by norm_num)
  unfold calcPremiumMult
  rw [← ht, ← hs, ← hf]
  constructor
  · have hlo := round3_ge_of (1 * t * s * f) 414 (by push_cast; nlinarith)
    have : ((414 : ℤ) : ℚ) / 1000 = 0.414 := by norm_num
    linarith [hlo, this.ge]
  · have hhi := round3_le_of (1 * t * s * f) 1417 (by push_cast; nlinarith)
    have : ((1417 : ℤ) : ℚ) / 1000 = 1.417 := by norm_num
    linarith [hhi, this.le]

/-- calc_discount_mult always lands in [0.476, 1.38] (rounded product of the
extreme table entries 0.80·0.70·0.85 and 1.20·1.00·1.15). -/
theorem calcDiscountMult_bounds (pool : PoolData) :
    0.476 ≤ calcDiscountMult pool ∧ calcDiscountMult pool ≤ 1.38 := by
  obtain ⟨ht1, ht2⟩ := discountTierMult_bounds pool.avg_loan_size 766550
  obtain ⟨hs1, hs2⟩ := discountServicerMult_bounds pool.servicer_name
  obtain ⟨hf1, hf2⟩ := discountFicoMult_bounds pool.avg_fico
  set t := discountTierMult (classifyLoanBalanceTier pool.avg_loan_size 766550) with ht
  set s := discountServicerMult (classifyServicerPrepayRisk pool.servicer_name) with hs
  set f := discountFicoMult (classifyFicoBucket pool.avg_fico) with hf
  have ht0 : (0:ℚ) ≤ t := by linarith
  have hs0 : (0:ℚ) ≤ s := by linarith
  have hf0 : (0:ℚ) ≤ f := by linarith
  have hts1 : (0.80 * 0.70 : ℚ) ≤ t * s := mul_le_mul ht1 hs1 (by norm_num) ht0
  have hts2 : t * s ≤ 1.20 * 1 := mul_le_mul ht2 hs2 hs0 (by norm_num)
  have hts0 : (0:ℚ) ≤ t * s := mul_nonneg ht0 hs0
  have hp1 : (0.80 * 0.70 * 0.85 : ℚ) ≤ t * s * f := mul_le_mul hts1 hf1 (by norm_num) hts0
  have hp2 : t * s * f ≤ 1.20 * 1 * 1.15 := mul_le_mul hts2 hf2 hf0 (by norm_num)
  unfold calcDiscountMult
  rw [← ht, ← hs, ← hf]
  constructor
  · have hlo := round3_ge_of (1 * t * s * f) 476 (by push_cast; nlinarith)
    have : ((476 : ℤ) : ℚ) / 1000 = 0.476 := by norm_num
    linarith [hlo, this.ge]
  · have hhi := round3_le_of (1 * t * s * f) 1380 (by push_cast; nlinarith)
    have : ((1380 : ℤ) : ℚ) / 1000 = 1.38 := by norm_num
    linarith [hhi, this.le]

-- ===========================================================================
-- Concrete pools used as witnesses / counterexamples
-- ===========================================================================

/-- A pool with every optional attribute null. -/
def nullPool : PoolData :=
  ⟨"POOL-NULL", none, none, none, none, none, none, none, none, none, none⟩

/-- A jumbo pool (loan size 800000 > 766550) serviced by Rocket, average FICO
800, average LTV 50, WALA 0, factor 1.0, null coupon and geography. -/
def jumboRocketPool : PoolData :=
  ⟨"POOL-JUMBO", some 800000, some 800, some 50, some 0, none, none, none,
   some "rocket", none, some 1⟩

/-- An LLB1 pool (loan size 50000) with average FICO 600 and no servicer. -/
def llbLowFicoPool : PoolData :=
  ⟨"POOL-LLB", some 50000, some 600, none, none, none, none, none, none, none, none⟩

-- ===========================================================================
-- C6: convexity_score = premium_cpr_mult / discount_cpr_mult
-- ===========================================================================

/-- C6: for every pool and market rate, the generated convexity_score equals
the rounded quotient of the generated premium multiplier by the generated
discount multiplier (with the discount multiplier replaced by the epsilon
0.01 when it is not strictly positive — a branch that never fires, since the
discount multiplier is at least 0.476), and the convexity score is strictly
positive. -/
theorem C6_convexity_quotient_and_pos (rate : ℚ) (pool : PoolData) :
    (generateAllTags rate pool).convexity_score
      = round3 ((generateAllTags rate pool).premium_cpr_mult /
          (if (generateAllTags rate pool).discount_cpr_mult ≤ 0 then 0.01
           else (generateAllTags rate pool).discount_cpr_mult)) ∧
    0 < (generateAllTags rate pool).convexity_score := by
  constructor
  · rfl
  · obtain ⟨hp1, _⟩ := calcPremiumMult_bounds pool
    obtain ⟨hd1, hd2⟩ := calcDiscountMult_bounds pool
    show 0 < calcConvexityScore (calcPremiumMult pool) (calcDiscountMult pool)
    unfold calcConvexityScore
    rw [if_neg (by linarith : ¬ calcDiscountMult pool ≤ 0)]
    have hd0 : (0:ℚ) < calcDiscountMult pool := by linarith
    have hq : (0.3 : ℚ) ≤ calcPremiumMult pool / calcDiscountMult pool := by
      rw [le_div_iff₀ hd0]
      nlinarith
    have h300 := round3_ge_of (calcPremiumMult pool / calcDiscountMult pool) 300
      (by push_cast; linarith)
    have : ((300 : ℤ) : ℚ) / 1000 = 0.3 := by norm_num
    linarith [h300, this.ge]

-- ===========================================================================
-- C9: range of calc_discount_mult
-- ===========================================================================

/-- C9 counterexample: an LLB1 pool with FICO_LOW borrowers and no servicer
gets discount_cpr_mult = round3(1.20 · 1.00 · 1.15) = 1.38, which exceeds the
claimed upper bound 1.242. -/
theorem C9_counterexample_discount_above_1242 :
    calcDiscountMult llbLowFicoPool = 1.38 ∧ ¬ (calcDiscountMult llbLowFicoPool ≤ 1.242) := by
  have h : calcDiscountMult llbLowFicoPool = 1.38 := by
    norm_num [calcDiscountMult, llbLowFicoPool, classifyLoanBalanceTier,
      classifyServicerPrepayRisk, classifyFicoBucket, discountTierMult,
      discountServicerMult, discountFicoMult, round3, roundHE]
  rw [h]
  norm_num

/-- C9 (amended): for every pool, calc_discount_mult lies in [0.476, 1.38]
(the rounded products 0.80·0.70·0.85 and 1.20·1.00·1.15 of the extreme table
entries), is strictly positive, and hence the division-by-zero guard in
calc_convexity_score never substitutes 0.01 for a discount multiplier
produced by the pipeline. -/
theorem C9_discount_mult_range (pool : PoolData) (premium : ℚ) :
    0.476 ≤ calcDiscountMult pool ∧ calcDiscountMult pool ≤ 1.38 ∧
    0 < calcDiscountMult pool ∧
    calcConvexityScore premium (calcDiscountMult pool)
      = round3 (premium / calcDiscountMult pool) := by
  obtain ⟨h1, h2⟩ := calcDiscountMult_bounds pool
  refine ⟨h1, h2, by linarith, ?_⟩
  unfold calcConvexityScore
  rw [if_neg (by linarith : ¬ calcDiscountMult pool ≤ 0)]

-- ===========================================================================
-- C1: [0,100] range of the generated scores
-- ===========================================================================

theorem jumboRocket_premium : calcPremiumMult jumboRocketPool = 1.417 := by
  have h1 : classifyLoanBalanceTier (some (800000:ℚ)) 766550 = "JUMBO" := by
    norm_num [classifyLoanBalanceTier]
  have h2 : classifyServicerPrepayRisk (some "rocket") = "PREPAY_EXPOSED" := by decide
  have h3 : classifyFicoBucket (some 800) = "FICO_SUPER" := by
    norm_num [classifyFicoBucket]
  simp only [calcPremiumMult, jumboRocketPool]
  rw [h1, h2, h3]
  norm_num [premiumTierMult, premiumServicerMult, premiumFicoMult, round3, roundHE]

theorem jumboRocket_discount : calcDiscountMult jumboRocketPool = 0.476 := by
  have h1 : classifyLoanBalanceTier (some (800000:ℚ)) 766550 = "JUMBO" := by
    norm_num [classifyLoanBalanceTier]
  have h2 : classifyServicerPrepayRisk (some "rocket") = "PREPAY_EXPOSED" := by decide
  have h3 : classifyFicoBucket (some 800) = "FICO_SUPER" := by
    norm_num [classifyFicoBucket]
  simp only [calcDiscountMult, jumboRocketPool]
  rw [h1, h2, h3]
  norm_num [discountTierMult, discountServicerMult, discountFicoMult, round3, roundHE]

theorem jumboRocket_convexity : calcConvexityScore 1.417 0.476 = 2.977 := by
  norm_num [calcConvexityScore, round3, roundHE]

theorem jumboRocket_composite :
    calcCompositePrepayScore "JUMBO" "PREPAY_EXPOSED" "FICO_SUPER" "MODERATE_FRICTION"
      0 "LTV_LOW" "NEW_PRODUCTION" = 30.8 := by
  norm_num [calcCompositePrepayScore, llbScore, servicerScore, ficoScore, stateScore,
    ltvScore, seasoningScore, round1, roundHE]

theorem jumboRocket_neutral : calcNeutralScenarioScore 30.8 2.977 = -9.4 := by
  unfold calcNeutralScenarioScore
  rw [abs_of_nonpos (by norm_num : (50:ℚ) - 2.977 * 50 ≤ 0)]
  norm_num [round1, roundHE]

/-- C1: the claim fails on the code — the neutral scenario score is not
clamped, and the jumbo / fast-servicer / super-prime pool gets
neutral_scenario_score = −9.4, outside [0,100].  (All pieces feeding it:
premium 1.417, discount 0.476, convexity 2.977, burnout 0, composite 30.8.) -/
theorem C1_neutral_score_below_zero :
    (generateAllTags 6.5 jumboRocketPool).neutral_scenario_score = -9.4 ∧
    (generateAllTags 6.5 jumboRocketPool).neutral_scenario_score < 0 := by
  have hserv : classifyServicerPrepayRisk (some "rocket") = "PREPAY_EXPOSED" := by decide
  have htier : classifyLoanBalanceTier (some (800000:ℚ)) 766550 = "JUMBO" := by
    norm_num [classifyLoanBalanceTier]
  have hfico : classifyFicoBucket (some 800) = "FICO_SUPER" := by
    norm_num [classifyFicoBucket]
  have hltv : classifyLtvBucket (some 50) = "LTV_LOW" := by norm_num [classifyLtvBucket]
  have hseas : classifySeasoningStage (some 0) = "NEW_PRODUCTION" := by
    norm_num [classifySeasoningStage]
  have hburn : calcBurnoutScore (some 0) (some 1) (calcRefiIncentive 6.5 none) = 0 := by
    norm_num [calcBurnoutScore, calcRefiIncentive, min_def]
  have hmain : (generateAllTags 6.5 jumboRocketPool).neutral_scenario_score = -9.4 := by
    show calcNeutralScenarioScore
      (calcCompositePrepayScore (classifyLoanBalanceTier (some (800000:ℚ)) 766550)
        (classifyServicerPrepayRisk (some "rocket")) (classifyFicoBucket (some 800))
        (classifyStateFriction none none)
        (calcBurnoutScore (some 0) (some 1) (calcRefiIncentive 6.5 none))
        (classifyLtvBucket (some 50)) (classifySeasoningStage (some 0)))
      (calcConvexityScore (calcPremiumMult jumboRocketPool) (calcDiscountMult jumboRocketPool))
      = -9.4
    rw [htier, hserv, hfico, hltv, hseas, hburn,
      jumboRocket_premium, jumboRocket_discount, jumboRocket_convexity]
    have hstate : classifyStateFriction none none = "MODERATE_FRICTION" := rfl
    rw [hstate, jumboRocket_composite, jumboRocket_neutral]
  exact ⟨hmain, by rw [hmain]; norm_num⟩

-- ===========================================================================
-- C2: two consecutive runs over N untagged pools
-- ===========================================================================

/-- A store of 2000 pools, none tagged yet. -/
def c2Store : List Bool := List.replicate 2000 false

/-- First invocation of tag_all_pools with batch_size 1000. -/
def c2Run1 : ℕ × List Bool := tagAllPools c2Store 1000 none

/-- Second invocation, on the store the first one left behind. -/
def c2Run2 : ℕ × List Bool := tagAllPools c2Run1.2 1000 none

theorem untaggedCount_nil : untaggedCount [] = 0 := rfl

theorem untaggedCount_cons_true (l : List Bool) :
    untaggedCount (true :: l) = untaggedCount l := by
  simp [untaggedCount]

theorem untaggedCount_cons_false (l : List Bool) :
    untaggedCount (false :: l) = untaggedCount l + 1 := by
  simp [untaggedCount, List.filter_cons]

theorem untaggedCount_replicate_false (n : ℕ) :
    untaggedCount (List.replicate n false) = n := by
  induction n with
  | zero => rfl
  | succ n ih => rw [List.replicate_succ, untaggedCount_cons_false, ih]

/-- The number of rows the batch SELECT returns, as a function of the number
of untagged rows: `min batch (untagged − offset)`. -/
theorem batchLen_eq (store : List Bool) (off batch : ℕ) :
    batchLen store off batch = min batch (untaggedCount store - off) := by
  unfold batchLen untaggedCount
  rw [List.length_take, List.length_drop]

/-- The batch UPDATE removes from the untagged set exactly the untagged rows
whose position (counted from `seen`) lies in the window `[off, off+batch)`. -/
theorem untaggedCount_tagSlice (store : List Bool) : ∀ seen off batch : ℕ,
    untaggedCount (tagSlice store seen off batch)
      = untaggedCount store
          - (min (seen + untaggedCount store) (off + batch) - max seen off) := by
  induction store with
  | nil => intro seen off batch; simp [tagSlice, untaggedCount_nil]
  | cons b rest ih =>
    intro seen off batch
    cases b
    · rw [show tagSlice (false :: rest) seen off batch
          = (if off ≤ seen ∧ seen < off + batch then true else false)
            :: tagSlice rest (seen + 1) off batch from rfl]
      rw [untaggedCount_cons_false]
      split_ifs with hw
      · rw [untaggedCount_cons_true, ih (seen + 1) off batch]
        omega
      · rw [untaggedCount_cons_false, ih (seen + 1) off batch]
        omega
    · rw [show tagSlice (true :: rest) seen off batch
          = true :: tagSlice rest seen off batch from rfl]
      rw [untaggedCount_cons_true, untaggedCount_cons_true, ih seen off batch]

theorem tagSlice_length (store : List Bool) : ∀ seen off batch : ℕ,
    (tagSlice store seen off batch).length = store.length := by
  induction store with
  | nil => intro seen off batch; rfl
  | cons b rest ih =>
    intro seen off batch
    cases b <;> simp [tagSlice, ih]

/-- The `while` loop of tag_all_pools, abstracted to the pair
(processed count, untagged count); the list-level loop refines it. -/
def countLoop (batch total : ℕ) : ℕ → ℕ → ℕ → ℕ → ℕ × ℕ
  | 0, processed, _, u => (processed, u)
  | fuel + 1, processed, off, u =>
    if processed < total then
      if min batch (u - off) = 0 then (processed, u)
      else countLoop batch total fuel (processed + min batch (u - off)) (off + batch)
        (u - min batch (u - off))
    else (processed, u)

theorem tagLoop_refines_countLoop (batch total : ℕ) :
    ∀ fuel processed off store,
      (tagLoop batch total fuel processed off store).1
          = (countLoop batch total fuel processed off (untaggedCount store)).1 ∧
      untaggedCount (tagLoop batch total fuel processed off store).2
          = (countLoop batch total fuel processed off (untaggedCount store)).2 := by
  intro fuel
  induction fuel with
  | zero => intro processed off store; exact ⟨rfl, rfl⟩
  | succ fuel ih =>
    intro processed off store
    rw [tagLoop, countLoop, batchLen_eq]
    split_ifs with h1 h2
    · exact ⟨rfl, rfl⟩
    · have hcount : untaggedCount (tagSlice store 0 off batch)
          = untaggedCount store - min batch (untaggedCount store - off) := by
        rw [untaggedCount_tagSlice]
        omega
      obtain ⟨ha, hb⟩ := ih (processed + min batch (untaggedCount store - off))
        (off + batch) (tagSlice store 0 off batch)
      rw [hcount] at ha hb
      exact ⟨ha, hb⟩
    · exact ⟨rfl, rfl⟩

theorem tagLoop_length (batch total : ℕ) :
    ∀ fuel processed off store,
      (tagLoop batch total fuel processed off store).2.length = store.length := by
  intro fuel
  induction fuel with
  | zero => intro processed off store; rfl
  | succ fuel ih =>
    intro processed off store
    rw [tagLoop]
    split_ifs with h1 h2
    · rfl
    · rw [ih, tagSlice_length]
    · rfl

/-- tag_all_pools at the count level. -/
def countAllPools (u len batch : ℕ) (limit : Option ℕ) : ℕ × ℕ :=
  countLoop batch
    (match limit with
     | none => u
     | some l => if l = 0 then u else min l u)
    (len + 1) 0 0 u

theorem tagAllPools_refines (store : List Bool) (batch : ℕ) (limit : Option ℕ) :
    (tagAllPools store batch limit).1
        = (countAllPools (untaggedCount store) store.length batch limit).1 ∧
    untaggedCount (tagAllPools store batch limit).2
        = (countAllPools (untaggedCount store) store.length batch limit).2 ∧
    (tagAllPools store batch limit).2.length = store.length := by
  obtain ⟨ha, hb⟩ := tagLoop_refines_countLoop batch
    (match limit with
     | none => untaggedCount store
     | some l => if l = 0 then untaggedCount store else min l (untaggedCount store))
    (store.length + 1) 0 0 store
  exact ⟨ha, hb, tagLoop_length _ _ _ _ _ _⟩

/-- A store of 5000 pools, none tagged yet, and two consecutive runs. -/
def c2bStore : List Bool := List.replicate 5000 false

def c2bRun1 : ℕ × List Bool := tagAllPools c2bStore 1000 none

def c2bRun2 : ℕ × List Bool := tagAllPools c2bRun1.2 1000 none

/-- C2: the claim fails on the code.  Over 2000 untagged pools with
batch_size 1000, the first run tags only 1000 pools (after the first batch is
persisted, the second fetch applies OFFSET 1000 to the remaining 1000
untagged rows and returns nothing), leaving 1000 pools untagged, and the
second invocation tags 1000 pools, not zero.  Over 5000 untagged pools the
two runs tag 3000 and 1000 pools and still leave 1000 untagged, so not even
the two-run total reaches N. -/
theorem C2_second_run_tags_1000 :
    (c2Run1.1 = 1000 ∧ untaggedCount c2Run1.2 = 1000 ∧ c2Run2.1 = 1000) ∧
    (c2bRun1.1 = 3000 ∧ c2bRun2.1 = 1000 ∧ untaggedCount c2bRun2.2 = 1000) := by
  constructor
  · simp only [c2Run2, c2Run1]
    obtain ⟨h1a, h1b, h1len⟩ := tagAllPools_refines c2Store 1000 none
    have hu : untaggedCount c2Store = 2000 := untaggedCount_replicate_false 2000
    have hlen : c2Store.length = 2000 := List.length_replicate 2000 false
    rw [hu, hlen] at h1a h1b
    have hc1 : (countAllPools 2000 2000 1000 none).1 = 1000 := by decide
    have hc2 : (countAllPools 2000 2000 1000 none).2 = 1000 := by decide
    refine ⟨h1a.trans hc1, h1b.trans hc2, ?_⟩
    obtain ⟨h2a, _, _⟩ := tagAllPools_refines (tagAllPools c2Store 1000 none).2 1000 none
    rw [h1b.trans hc2, h1len.trans hlen] at h2a
    have hc3 : (countAllPools 1000 2000 1000 none).1 = 1000 := by decide
    exact h2a.trans hc3
  · simp only [c2bRun2, c2bRun1]
    obtain ⟨h1a, h1b, h1len⟩ := tagAllPools_refines c2bStore 1000 none
    have hu : untaggedCount c2bStore = 5000 := untaggedCount_replicate_false 5000
    have hlen : c2bStore.length = 5000 := List.length_replicate 5000 false
    rw [hu, hlen] at h1a h1b
    have hc1 : (countAllPools 5000 5000 1000 none).1 = 3000 := by decide
    have hc2 : (countAllPools 5000 5000 1000 none).2 = 2000 := by decide
    refine ⟨h1a.trans hc1, ?_, ?_⟩
    · obtain ⟨h2a, h2b, _⟩ := tagAllPools_refines (tagAllPools c2bStore 1000 none).2 1000 none
      rw [h1b.trans hc2, h1len.trans hlen] at h2a
      exact h2a.trans (by decide : (countAllPools 2000 5000 1000 none).1 = 1000)
    · obtain ⟨h2a, h2b, _⟩ := tagAllPools_refines (tagAllPools c2bStore 1000 none).2 1000 none
      rw [h1b.trans hc2, h1len.trans hlen] at h2b
      exact h2b.trans (by decide : (countAllPools 2000 5000 1000 none).2 = 1000)

-- ===========================================================================
-- C3: the `limit` parameter
-- ===========================================================================

/-- C3 counterexample: with 2 untagged pools, batch_size 2 and limit 1, the
run processes 2 pools — the limit only caps the loop target, while a full
batch is still fetched and persisted. -/
theorem C3_counterexample_limit_exceeded :
    (tagAllPools (List.replicate 2 false) 2 (some 1)).1 = 2 ∧
    ¬ ((tagAllPools (List.replicate 2 false) 2 (some 1)).1 ≤ 1) := by
  refine ⟨?_, ?_⟩ <;> decide

theorem batchLen_le (store : List Bool) (off batch : ℕ) :
    batchLen store off batch ≤ batch := by
  unfold batchLen
  rw [List.length_take]
  exact min_le_left _ _

theorem tagLoop_processed_le (batch total : ℕ) (hB : 1 ≤ batch) :
    ∀ fuel processed off store, processed ≤ total + batch - 1 →
      (tagLoop batch total fuel processed off store).1 ≤ total + batch - 1 := by
  intro fuel
  induction fuel with
  | zero => intro processed off store hp; simpa [tagLoop] using hp
  | succ fuel ih =>
    intro processed off store hp
    rw [tagLoop]
    split_ifs with h1 h2
    · exact hp
    · apply ih
      have hr := batchLen_le store off batch
      omega
    · exact hp

theorem tagAllPools_some_eq (store : List Bool) (batch limit : ℕ) :
    tagAllPools store batch (some limit)
      = tagLoop batch
          (if limit = 0 then untaggedCount store else min limit (untaggedCount store))
          (store.length + 1) 0 0 store := rfl

/-- C3 (amended): the `limit` is enforced only at batch granularity — a run
invoked with limit L ≥ 1 and batch_size B ≥ 1 processes at most
L + B − 1 pools (it can overshoot L by up to one batch, as the
counterexample shows, but never by more). -/
theorem C3_limit_caps_up_to_batch (store : List Bool) (batch limit : ℕ)
    (hB : 1 ≤ batch) (hL : 1 ≤ limit) :
    (tagAllPools store batch (some limit)).1 ≤ limit + batch - 1 := by
  rw [tagAllPools_some_eq]
  have htot : (if limit = 0 then untaggedCount store else min limit (untaggedCount store))
      ≤ limit := by
    split_ifs with h
    · omega
    · exact min_le_left _ _
  have h0 : (0:ℕ) ≤ (if limit = 0 then untaggedCount store
      else min limit (untaggedCount store)) + batch - 1 := by omega
  have hmain := tagLoop_processed_le batch
    (if limit = 0 then untaggedCount store else min limit (untaggedCount store)) hB
    (store.length + 1) 0 0 store h0
  omega

/-- Witness for C3's amended theorem at batch_size 2, limit 1, two untagged
pools: the processed count (which is 2) is at most 1 + 2 − 1. -/
theorem C3_limit_caps_up_to_batch_witness :
    (tagAllPools (List.replicate 2 false) 2 (some 1)).1 ≤ 1 + 2 - 1 :=
  C3_limit_caps_up_to_batch (List.replicate 2 false) 2 1 (by norm_num) (by norm_num)

-- ===========================================================================
-- C4: the CLI mortgage-rate override
-- ===========================================================================

/-- C4 counterexample: with CLI override rate 5.0 and the market-rate lookup
unavailable, a pool with wac 7.0 gets refi_incentive_bps = (7 − 6.5)·100 = 50
(the run uses the hardcoded fallback 6.5), not (7 − 5)·100 = 200 as the claim
requires. -/
theorem C4_counterexample_override_discarded :
    calcRefiIncentive (runEffectiveRate 5 none) (some 7) = 50 ∧
    ((7:ℚ) - 5) * 100 = 200 ∧ (50:ℚ) ≠ 200 := by
  refine ⟨?_, by norm_num, by norm_num⟩
  show ((7:ℚ) - 6.5) * 100 = 50
  norm_num

/-- C4 (amended): tag_all_pools starts by overwriting the tagger's rate with
the market-rate lookup result, so the tag sets of a run are independent of
the constructor/CLI rate override; when the lookup is unavailable the run
falls back to the hardcoded default 6.5 — not to the caller-supplied rate. -/
theorem C4_run_rate_ignores_override (r r' : ℚ) (lookup : Option ℚ) (pool : PoolData) :
    generateAllTags (runEffectiveRate r lookup) pool
      = generateAllTags (runEffectiveRate r' lookup) pool ∧
    runEffectiveRate r none = 6.5 ∧
    (∀ v : ℚ, runEffectiveRate r (some v) = v) :=
  ⟨rfl, rfl, fun _ => rfl⟩

-- ===========================================================================
-- C5: the deep out-of-the-money adjustment in calc_extension_risk
-- ===========================================================================

/-- C5 counterexample: at refi incentive exactly −100 bps the adjustment is
+10, not the +20 the claim states (the source uses strict `<`). -/
theorem C5_counterexample_at_minus_100 :
    extensionOtmAdj (-100) = 10 ∧ (10:ℚ) ≠ 20 := by
  constructor
  · unfold extensionOtmAdj
    norm_num
  · norm_num

/-- C5 (amended): the adjustment is +20 exactly when refi incentive is
strictly below −100 bps, +10 when it is in [−100, −50), and 0 when it is at
least −50 bps; in particular at exactly −100 bps it is +10. -/
theorem C5_otm_adjustment_trichotomy (i : ℚ) :
    (i < -100 → extensionOtmAdj i = 20) ∧
    (-100 ≤ i → i < -50 → extensionOtmAdj i = 10) ∧
    (-50 ≤ i → extensionOtmAdj i = 0) := by
  unfold extensionOtmAdj
  refine ⟨fun h1 => ?_, fun h1 h2 => ?_, fun h1 => ?_⟩
  · rw [if_pos h1]
  · rw [if_neg (by linarith), if_pos h2]
  · rw [if_neg (by linarith), if_neg (by linarith)]

/-- Witness for C5's amended theorem at −150, −100 and 0 bps. -/
theorem C5_otm_adjustment_trichotomy_witness :
    extensionOtmAdj (-150) = 20 ∧ extensionOtmAdj (-100) = 10 ∧ extensionOtmAdj 0 = 0 :=
  ⟨(C5_otm_adjustment_trichotomy (-150)).1 (by norm_num),
   (C5_otm_adjustment_trichotomy (-100)).2.1 (by norm_num) (by norm_num),
   (C5_otm_adjustment_trichotomy 0).2.2 (by norm_num)⟩

-- ===========================================================================
-- C7: determinism / idempotence of generate_all_tags
-- ===========================================================================

/-- C7: tagging is deterministic — two invocations of the four-layer pipeline
on equal pool attribute records with the same market rate produce identical
tag sets (all categorical tags, continuous metrics, composite scores, and the
behavior-tag mapping). -/
theorem C7_generateAllTags_deterministic (p₁ p₂ : PoolData) (r₁ r₂ : ℚ)
    (hp : p₁ = p₂) (hr : r₁ = r₂) :
    generateAllTags r₁ p₁ = generateAllTags r₂ p₂ := by
  rw [hp, hr]

/-- Witness for C7 at a concrete pool and rate. -/
theorem C7_generateAllTags_deterministic_witness :
    generateAllTags 6.5 jumboRocketPool = generateAllTags 6.5 jumboRocketPool :=
  C7_generateAllTags_deterministic jumboRocketPool jumboRocketPool 6.5 6.5 rfl rfl

-- ===========================================================================
-- C8: null-safety and documented defaults
-- ===========================================================================

/-- C8: the all-null pool gets a complete tag set (the pipeline is total by
construction) whose categorical classifiers all yield their documented
defaults, for every market rate. -/
theorem C8_null_pool_defaults (r : ℚ) :
    (generateAllTags r nullPool).loan_balance_tier = "STD" ∧
    (generateAllTags r nullPool).fico_bucket = "FICO_GOOD" ∧
    (generateAllTags r nullPool).ltv_bucket = "LTV_STANDARD" ∧
    (generateAllTags r nullPool).seasoning_stage = "FULLY_SEASONED" ∧
    (generateAllTags r nullPool).state_prepay_friction = "MODERATE_FRICTION" ∧
    (generateAllTags r nullPool).servicer_prepay_risk = "NEUTRAL" ∧
    (generateAllTags r nullPool).geo_concentration_tag = "DIVERSIFIED" :=
  ⟨rfl, rfl, rfl, rfl, rfl, rfl, rfl⟩

-- ===========================================================================
-- C10: undocumented Layer-2 null defaults
-- ===========================================================================

/-- C10: a null wac yields refi_incentive_bps = 0 for every market rate; the
burnout score substitutes 36 for a null wala and 0.85 for a null factor, so
the all-null pool always gets burnout_score 30.0; and the extension_risk
behavior rule evaluates a null factor as 1.0. -/
theorem C10_layer2_null_defaults (r i : ℚ) :
    calcRefiIncentive r none = 0 ∧
    calcBurnoutScore none none i = calcBurnoutScore (some 36) (some 0.85) i ∧
    (generateAllTags r nullPool).burnout_score = 30 ∧
    behaviorFactorGuard none = 1 := by
  refine ⟨rfl, ?_, ?_, rfl⟩
  · simp only [calcBurnoutScore]
    norm_num
  · show calcBurnoutScore none none (calcRefiIncentive r none) = 30
    show calcBurnoutScore none none 0 = 30
    norm_num [calcBurnoutScore, min_def]
